import Mathlib

/-!
Shallow embedding of `tensorflow/compiler/tf2xla/kernels/relu_op.cc`.

The file lowers the Relu, Relu6, Relu1 activations and their gradients to
XLA `ComputationBuilder` primitives.  We embed the emitted graph fragments
as a small expression language (`NExpr` for numeric-valued nodes, `BExpr`
for predicate-valued nodes), mirroring exactly the builder calls made by
each `Compile` / `BuildMapLambda` method, and give it

  * a per-element evaluation semantics over `ℚ` (each primitive used here
    is elementwise after broadcasting, so the value of one output element
    depends only on the corresponding input elements),
  * a shape semantics (`Option (List Nat)`, `none` for a construction
    error), in which the arithmetic primitives `Max`/`Clamp` broadcast a
    scalar operand automatically, while the comparison and `Select`
    primitives require exactly matching shapes — which is why the source
    broadcasts its constants explicitly in the gradient lowerings,
  * syntactic inventories of the input indices consumed and of the element
    types attached to the injected constants.
-/

/-- Element types an XLA operator input may carry (`input_type(0)` in the
source).  Evaluation is modelled over `ℚ`; the element type is tracked
syntactically on the constants the lowerings inject. -/
inductive ElemType where
  | f16 | bf16 | f32 | f64 | i32 | i64
deriving DecidableEq, Repr

mutual
/-- Numeric-valued graph nodes: the `ComputationBuilder` primitives used by
`relu_op.cc`.  `const t v` is `XlaHelpers::Zero` (with `v = 0`) and
`intLit t v` is `XlaHelpers::IntegerLiteral`; `broadcast e dims` is
`builder->Broadcast(e, dims)`; `max`, `clamp`, `select` are
`builder->Max/Clamp/Select`; `input i` is `ctx->Input(i)`. -/
inductive NExpr where
  | input (i : Nat)
  | const (t : ElemType) (v : ℚ)
  | intLit (t : ElemType) (v : Int)
  | broadcast (e : NExpr) (dims : List Nat)
  | max (a b : NExpr)
  | clamp (lo x hi : NExpr)
  | select (p : BExpr) (onTrue onFalse : NExpr)

/-- Predicate-valued graph nodes: `builder->Gt/Lt/LogicalAnd`. -/
inductive BExpr where
  | gt (a b : NExpr)
  | lt (a b : NExpr)
  | land (a b : BExpr)
end

mutual
/-- Per-element evaluation of a numeric node; `env i` is the value of the
element of input `i` at the current position.  `broadcast` replicates its
scalar operand, so per element it is the identity; `clamp lo x hi` is
`min(max(x, lo), hi)`. -/
def evalN (env : Nat → ℚ) : NExpr → ℚ
  | .input i => env i
  | .const _ v => v
  | .intLit _ v => (v : ℚ)
  | .broadcast e _ => evalN env e
  | .max a b => Max.max (evalN env a) (evalN env b)
  | .clamp lo x hi => Min.min (Max.max (evalN env x) (evalN env lo)) (evalN env hi)
  | .select p a b => if evalB env p then evalN env a else evalN env b

/-- Per-element evaluation of a predicate node. -/
def evalB (env : Nat → ℚ) : BExpr → Bool
  | .gt a b => decide (evalN env b < evalN env a)
  | .lt a b => decide (evalN env a < evalN env b)
  | .land a b => evalB env a && evalB env b
end

/-- Shape join for the arithmetic primitives (`Max`, `Clamp`), which
broadcast a scalar (rank-0) operand against a tensor operand
automatically. -/
def joinScalar (s1 s2 : List Nat) : Option (List Nat) :=
  if s1 = s2 then some s1
  else if s1 = [] then some s2
  else if s2 = [] then some s1
  else none

/-- Shape join for the comparison and `Select` primitives, which do not
auto-broadcast: the shapes must match exactly or construction fails. -/
def sameShape (s1 s2 : List Nat) : Option (List Nat) :=
  if s1 = s2 then some s1 else none

mutual
/-- Shape semantics of a numeric node; `ishape i` is `ctx->InputShape(i)`.
`none` is a construction-time error.  `Broadcast(e, dims)` prepends `dims`
to the operand's shape (for the scalar constants used here, the result
shape is `dims`). -/
def shapeN (ishape : Nat → List Nat) : NExpr → Option (List Nat)
  | .input i => some (ishape i)
  | .const _ _ => some []
  | .intLit _ _ => some []
  | .broadcast e dims => (shapeN ishape e).map (fun s => dims ++ s)
  | .max a b => do joinScalar (← shapeN ishape a) (← shapeN ishape b)
  | .clamp lo x hi => do
      let s ← joinScalar (← shapeN ishape lo) (← shapeN ishape x)
      joinScalar s (← shapeN ishape hi)
  | .select p a b => do
      let sp ← shapeB ishape p
      let s ← sameShape (← shapeN ishape a) (← shapeN ishape b)
      sameShape sp s

/-- Shape semantics of a predicate node. -/
def shapeB (ishape : Nat → List Nat) : BExpr → Option (List Nat)
  | .gt a b => do sameShape (← shapeN ishape a) (← shapeN ishape b)
  | .lt a b => do sameShape (← shapeN ishape a) (← shapeN ishape b)
  | .land a b => do sameShape (← shapeB ishape a) (← shapeB ishape b)
end

mutual
/-- Indices of the operator inputs a numeric node reads, in traversal
order. -/
def inputsN : NExpr → List Nat
  | .input i => [i]
  | .const _ _ => []
  | .intLit _ _ => []
  | .broadcast e _ => inputsN e
  | .max a b => inputsN a ++ inputsN b
  | .clamp lo x hi => inputsN lo ++ inputsN x ++ inputsN hi
  | .select p a b => inputsB p ++ inputsN a ++ inputsN b

/-- Indices of the operator inputs a predicate node reads. -/
def inputsB : BExpr → List Nat
  | .gt a b => inputsN a ++ inputsN b
  | .lt a b => inputsN a ++ inputsN b
  | .land a b => inputsB a ++ inputsB b
end

mutual
/-- Element types of the scalar constants a numeric node injects
(`XlaHelpers::Zero` and `XlaHelpers::IntegerLiteral` calls), in traversal
order. -/
def constTypesN : NExpr → List ElemType
  | .input _ => []
  | .const t _ => [t]
  | .intLit t _ => [t]
  | .broadcast e _ => constTypesN e
  | .max a b => constTypesN a ++ constTypesN b
  | .clamp lo x hi => constTypesN lo ++ constTypesN x ++ constTypesN hi
  | .select p a b => constTypesB p ++ constTypesN a ++ constTypesN b

/-- Element types of the constants a predicate node injects. -/
def constTypesB : BExpr → List ElemType
  | .gt a b => constTypesN a ++ constTypesN b
  | .lt a b => constTypesN a ++ constTypesN b
  | .land a b => constTypesB a ++ constTypesB b
end

/-- `ReluOp::Compile`: `zero = XlaHelpers::Zero(builder, input_type(0))`;
output `builder->Max(zero, ctx->Input(0))`. -/
def ReluOp.Compile (t : ElemType) : NExpr :=
  let zero := NExpr.const t 0
  NExpr.max zero (NExpr.input 0)

/-- `Relu6Op::Compile`: output `builder->Clamp(zero, ctx->Input(0), six)`
with `six = XlaHelpers::IntegerLiteral(builder, input_type(0), 6)`. -/
def Relu6Op.Compile (t : ElemType) : NExpr :=
  let zero := NExpr.const t 0
  let six := NExpr.intLit t 6
  NExpr.clamp zero (NExpr.input 0) six

/-- `Relu1Op::Compile`: output `builder->Clamp(zero, ctx->Input(0), one)`
with `one = XlaHelpers::IntegerLiteral(builder, input_type(0), 1)`. -/
def Relu1Op.Compile (t : ElemType) : NExpr :=
  let zero := NExpr.const t 0
  let one := NExpr.intLit t 1
  NExpr.clamp zero (NExpr.input 0) one

/-- `ReluGradOp::Compile`: `shape = ctx->InputShape(0)`; `zero` is the
scalar zero broadcast to `shape`; `pred = b->Gt(ctx->Input(1), zero)`;
output `b->Select(pred, ctx->Input(0), zero)`. -/
def ReluGradOp.Compile (t : ElemType) (shape : List Nat) : NExpr :=
  let zero := NExpr.broadcast (NExpr.const t 0) shape
  let pred := BExpr.gt (NExpr.input 1) zero
  NExpr.select pred (NExpr.input 0) zero

/-- `Relu6GradOp::Compile`: `zero` and `six` broadcast to
`ctx->InputShape(0)`; output
`b->Select(b->LogicalAnd(b->Lt(Input(1), six), b->Gt(Input(1), zero)), Input(0), zero)`. -/
def Relu6GradOp.Compile (t : ElemType) (shape : List Nat) : NExpr :=
  let zero := NExpr.broadcast (NExpr.const t 0) shape
  let six := NExpr.broadcast (NExpr.intLit t 6) shape
  NExpr.select
    (BExpr.land (BExpr.lt (NExpr.input 1) six) (BExpr.gt (NExpr.input 1) zero))
    (NExpr.input 0) zero

/-- `Relu1GradOp::BuildMapLambda`: the scalar lambda
`b->Select(b->LogicalAnd(b->Lt(feature, one), b->Gt(feature, zero)), gradient, zero)`
with scalar `zero` and `one` constants typed to `input_type(0)`. -/
def Relu1GradOp.BuildMapLambda (t : ElemType) (gradient feature : NExpr) : NExpr :=
  let zero := NExpr.const t 0
  let one := NExpr.intLit t 1
  NExpr.select (BExpr.land (BExpr.lt feature one) (BExpr.gt feature zero))
    gradient zero

/-- Modelled from the spec: `XlaBinaryMapOp` (declared in `cwise_ops.h`,
which is not under `src/`) applies its subclass's scalar lambda
elementwise to the two operator inputs — "a lowering that takes two
same-shaped inputs and a per-element scalar lambda
`(gradient_scalar, feature_scalar) -> output_scalar`" (§4.8), so per
element the emitted computation is the lambda applied to input 0 (the
gradient) and input 1 (the feature). -/
def XlaBinaryMapOp.applyLambda (lam : NExpr → NExpr → NExpr) : NExpr :=
  lam (NExpr.input 0) (NExpr.input 1)

/-- Modelled from the spec: `XlaBinaryMapOp` (not under `src/`) consumes
two same-shaped inputs and produces one output of that shape; a shape
mismatch is a construction error (§3, §4.8). -/
def XlaBinaryMapOp.outputShape (s0 s1 : List Nat) : Option (List Nat) :=
  if s0 = s1 then some s0 else none

/-- The full `Relu1Grad` lowering: the binary-map abstraction applied to
`Relu1GradOp::BuildMapLambda`. -/
def Relu1GradOp.Compile (t : ElemType) : NExpr :=
  XlaBinaryMapOp.applyLambda (Relu1GradOp.BuildMapLambda t)

/-- The six kernel classes registered by this translation unit. -/
inductive XlaOpClass where
  | ReluOp | Relu6Op | Relu1Op | ReluGradOp | Relu6GradOp | Relu1GradOp
deriving DecidableEq, Repr

/-- The `REGISTER_XLA_OP` lines of `relu_op.cc`, in source order: the
(operator-name, kernel-class) pairs this module contributes to the static
registry. -/
def registrations : List (String × XlaOpClass) :=
  [("Relu", XlaOpClass.ReluOp),
   ("Relu6", XlaOpClass.Relu6Op),
   ("Relu1", XlaOpClass.Relu1Op),
   ("ReluGrad", XlaOpClass.ReluGradOp),
   ("Relu6Grad", XlaOpClass.Relu6GradOp),
   ("Relu1Grad", XlaOpClass.Relu1GradOp)]

/-- Environment for a gradient lowering: input 0 (the incoming gradient)
holds `g`, input 1 (the original feature) holds `x` at the current
element. -/
def gradEnv (g x : ℚ) : Nat → ℚ := fun i => if i = 0 then g else x

/-- Environment for a forward lowering: the single input holds `x`. -/
def unaryEnv (x : ℚ) : Nat → ℚ := fun _ => x

/-- Elementwise evaluation of a single-input lowering over a rank-1 input
tensor given as a list of element values. -/
def evalUnaryTensor (e : NExpr) (xs : List ℚ) : List ℚ :=
  xs.map (fun x => evalN (unaryEnv x) e)

/-- C1: for every gradient value `g` and feature value `x`,
`ReluGrad(g, x) = g` if `x > 0` and `0` otherwise; in particular the
boundary `x = 0` yields `0`, because the lowering computes the mask with
the strict comparison `feature > 0` and selects the incoming gradient only
where the mask is true. -/
theorem reluGrad_semantics (t : ElemType) (s : List Nat) (g x : ℚ) :
    evalN (gradEnv g x) (ReluGradOp.Compile t s) = (if 0 < x then g else 0) ∧
    evalN (gradEnv g 0) (ReluGradOp.Compile t s) = 0 := by
  constructor <;> simp [ReluGradOp.Compile, evalN, evalB, gradEnv]

/-- C2: for every gradient value `g` and feature value `x`,
`Relu6Grad(g, x) = g` if `0 < x < 6` and `0` otherwise; both boundaries
`x = 0` and `x = 6` yield `0`, the mask being the conjunction of the two
strict comparisons `feature < 6` and `feature > 0` against broadcast
constants, selecting between the incoming gradient and zero. -/
theorem relu6Grad_semantics (t : ElemType) (s : List Nat) (g x : ℚ) :
    evalN (gradEnv g x) (Relu6GradOp.Compile t s) = (if 0 < x ∧ x < 6 then g else 0) ∧
    evalN (gradEnv g 0) (Relu6GradOp.Compile t s) = 0 ∧
    evalN (gradEnv g 6) (Relu6GradOp.Compile t s) = 0 := by
  refine ⟨?_, ?_, ?_⟩ <;>
    simp [Relu6GradOp.Compile, evalN, evalB, gradEnv, and_comm]

/-- C3: for every gradient value `g` and feature value `x`,
`Relu1Grad(g, x) = g` if `0 < x < 1` and `0` otherwise, the mask being
`zero < feature < one` with a strict upper bound, and the per-element
select being expressed through the binary-map abstraction. -/
theorem relu1Grad_semantics (t : ElemType) (g x : ℚ) :
    evalN (gradEnv g x) (Relu1GradOp.Compile t) = (if 0 < x ∧ x < 1 then g else 0) ∧
    Relu1GradOp.Compile t = XlaBinaryMapOp.applyLambda (Relu1GradOp.BuildMapLambda t) := by
  refine ⟨?_, rfl⟩
  simp [Relu1GradOp.Compile, XlaBinaryMapOp.applyLambda, Relu1GradOp.BuildMapLambda,
    evalN, evalB, gradEnv, and_comm]

/-- C4: the Relu lowering emits exactly `max(0, input)` — the output is the
builder's `Max` of a scalar zero constant typed to the input element type
and the input — so every element evaluates to `max 0 x`, and on the example
tensor `[-2, 0, 3, 6, 8]` the result is `[0, 0, 3, 6, 8]`. -/
theorem relu_semantics :
    (∀ (t : ElemType) (x : ℚ),
        ReluOp.Compile t = NExpr.max (NExpr.const t 0) (NExpr.input 0) ∧
        evalN (unaryEnv x) (ReluOp.Compile t) = Max.max 0 x) ∧
    evalUnaryTensor (ReluOp.Compile ElemType.f32) [-2, 0, 3, 6, 8] = [0, 0, 3, 6, 8] := by
  refine ⟨fun t x => ⟨rfl, ?_⟩, ?_⟩
  · simp [ReluOp.Compile, evalN, unaryEnv]
  · decide

/-- C5: the Relu6 lowering emits `clamp(0, input, 6)`, a single `Clamp`
whose bounds are a zero constant and a literal `6` typed to the input
element type; every element evaluates to `min(max(x, 0), 6)`, and in
particular `Relu6(-1) = 0`, `Relu6(3) = 3`, `Relu6(10) = 6`. -/
theorem relu6_semantics :
    (∀ (t : ElemType) (x : ℚ),
        Relu6Op.Compile t = NExpr.clamp (NExpr.const t 0) (NExpr.input 0) (NExpr.intLit t 6) ∧
        evalN (unaryEnv x) (Relu6Op.Compile t) = Min.min (Max.max x 0) 6) ∧
    evalN (unaryEnv (-1)) (Relu6Op.Compile ElemType.f32) = 0 ∧
    evalN (unaryEnv 3) (Relu6Op.Compile ElemType.f32) = 3 ∧
    evalN (unaryEnv 10) (Relu6Op.Compile ElemType.f32) = 6 := by
  refine ⟨fun t x => ⟨rfl, ?_⟩, ?_, ?_, ?_⟩
  · simp [Relu6Op.Compile, evalN, unaryEnv]
  all_goals norm_num [Relu6Op.Compile, evalN, unaryEnv, min_def, max_def]

/-- C6: the Relu1 lowering emits `clamp(0, input, 1)`, structurally
identical to Relu6 with upper bound `1`; every element evaluates to
`min(max(x, 0), 1)`, and in particular `Relu1(-1) = 0`,
`Relu1(0.5) = 0.5`, `Relu1(2) = 1`. -/
theorem relu1_semantics :
    (∀ (t : ElemType) (x : ℚ),
        Relu1Op.Compile t = NExpr.clamp (NExpr.const t 0) (NExpr.input 0) (NExpr.intLit t 1) ∧
        evalN (unaryEnv x) (Relu1Op.Compile t) = Min.min (Max.max x 0) 1) ∧
    evalN (unaryEnv (-1)) (Relu1Op.Compile ElemType.f32) = 0 ∧
    evalN (unaryEnv (1/2)) (Relu1Op.Compile ElemType.f32) = 1/2 ∧
    evalN (unaryEnv 2) (Relu1Op.Compile ElemType.f32) = 1 := by
  refine ⟨fun t x => ⟨rfl, ?_⟩, ?_, ?_, ?_⟩
  · simp [Relu1Op.Compile, evalN, unaryEnv]
  all_goals norm_num [Relu1Op.Compile, evalN, unaryEnv, min_def, max_def]

/-- C7: each gradient lowering consumes exactly the two inputs 0 (incoming
gradient) and 1 (original feature) and produces one output; when both
inputs have the same shape `S` the output's shape is `S`, and the zero
tensor used for masking and selection is explicitly broadcast to that
(the feature's) shape. -/
theorem gradOps_arity_and_shapes (t : ElemType) (S : List Nat) :
    (inputsN (ReluGradOp.Compile t S)).toFinset = {0, 1} ∧
    (inputsN (Relu6GradOp.Compile t S)).toFinset = {0, 1} ∧
    (inputsN (Relu1GradOp.Compile t)).toFinset = {0, 1} ∧
    shapeN (fun _ => S) (ReluGradOp.Compile t S) = some S ∧
    shapeN (fun _ => S) (Relu6GradOp.Compile t S) = some S ∧
    XlaBinaryMapOp.outputShape S S = some S ∧
    ReluGradOp.Compile t S =
      NExpr.select (BExpr.gt (NExpr.input 1) (NExpr.broadcast (NExpr.const t 0) S))
        (NExpr.input 0) (NExpr.broadcast (NExpr.const t 0) S) := by
  have h1 : inputsN (ReluGradOp.Compile t S) = [1, 0] := rfl
  have h2 : inputsN (Relu6GradOp.Compile t S) = [1, 1, 0] := rfl
  have h3 : inputsN (Relu1GradOp.Compile t) = [1, 1, 0] := rfl
  refine ⟨?_, ?_, ?_, ?_, ?_, ?_, rfl⟩
  · rw [h1]; decide
  · rw [h2]; decide
  · rw [h3]; decide
  · simp [ReluGradOp.Compile, shapeN, shapeB, sameShape]
  · simp [Relu6GradOp.Compile, shapeN, shapeB, sameShape]
  · simp [XlaBinaryMapOp.outputShape]

/-- C8: every scalar constant injected by the lowerings — the zeros, the
literal `6` of Relu6/Relu6Grad and the literal `1` of Relu1/Relu1Grad — is
constructed with exactly the operator's declared input element type `t`
(the type of input 0), so no emitted operation mixes a constant of one
element type with an input of another. -/
theorem const_types_match_input_type (t : ElemType) (S : List Nat) :
    constTypesN (ReluOp.Compile t) = [t] ∧
    constTypesN (Relu6Op.Compile t) = [t, t] ∧
    constTypesN (Relu1Op.Compile t) = [t, t] ∧
    constTypesN (ReluGradOp.Compile t S) = [t, t] ∧
    constTypesN (Relu6GradOp.Compile t S) = [t, t, t] ∧
    constTypesN (Relu1GradOp.Compile t) = [t, t, t] :=
  ⟨rfl, rfl, rfl, rfl, rfl, rfl⟩

/-- C9: the registration table contains exactly one entry for each of the
six operator names `Relu`, `Relu6`, `Relu1`, `ReluGrad`, `Relu6Grad`,
`Relu1Grad`, each keyed by that exact string and mapped to the
corresponding kernel class, and no other operator name is registered by
this module. -/
theorem registration_table :
    registrations =
      [("Relu", XlaOpClass.ReluOp),
       ("Relu6", XlaOpClass.Relu6Op),
       ("Relu1", XlaOpClass.Relu1Op),
       ("ReluGrad", XlaOpClass.ReluGradOp),
       ("Relu6Grad", XlaOpClass.Relu6GradOp),
       ("Relu1Grad", XlaOpClass.Relu1GradOp)] ∧
    (registrations.map Prod.fst).Nodup ∧
    registrations.length = 6 :=
  ⟨rfl, by decide, rfl⟩

/-- C10: at the upper boundary exactly, for every gradient value `g`,
`Relu1Grad(g, 1) = 0`: the select is gated on a strict less-than
comparison of the feature against the literal one, so the gradient is
zeroed when the feature equals 1. -/
theorem relu1Grad_boundary_one (t : ElemType) (g : ℚ) :
    evalN (gradEnv g 1) (Relu1GradOp.Compile t) = 0 := by
  simp [Relu1GradOp.Compile, XlaBinaryMapOp.applyLambda, Relu1GradOp.BuildMapLambda,
    evalN, evalB, gradEnv]
